import Mathlib

/-!
Verification development for the protein-binder design pipeline
(`workflow/binding_analysis.py`, `workflow/workflow_state.py`,
`workflow/generative_pipeline.py`, `core/pdb_viewer.py`).

Python floats are modelled as `ℚ`; machine I/O (file writes, HTTP calls,
printing) is not modelled — external-service behaviour enters as an explicit
parameter.  Python `str` is modelled as `String`, Python dicts as
insertion-ordered association lists, and Python exceptions as explicit
result values.
-/

set_option autoImplicit false

-- Rational arithmetic and scientific literals are `@[irreducible]` upstream,
-- which blocks `decide`-style evaluation of the executable model; restore
-- default transparency (the definitions are unchanged).
set_option maxRecDepth 100000
set_option allowUnsafeReducibility true
attribute [local semireducible] Rat.add Rat.mul Rat.inv Rat.sub Rat.ofScientific

namespace PyLib

/-- Python string slicing `s[a:b]` (clamping, never raising). -/
def pySlice (s : String) (a b : Nat) : String :=
  String.mk ((s.toList.drop a).take (b - a))

/-- Python whitespace test used by `str.strip`. -/
def pyIsSpace (c : Char) : Bool :=
  c = ' ' ∨ c = '\t' ∨ c = '\n' ∨ c = '\r'

/-- Python `str.strip()` (both-side whitespace trim). -/
def pyStrip (s : String) : String :=
  String.mk (((s.toList.dropWhile pyIsSpace).reverse.dropWhile pyIsSpace).reverse)

/-- Python `str.startswith(p)`. -/
def pyStartsWith (s p : String) : Bool :=
  decide (p.toList <+: s.toList)

/-- Character-level newline split (tail-recursive accumulator form). -/
def splitNlAux : List Char → List Char → List (List Char) → List (List Char)
  | [], cur, acc => (cur.reverse :: acc).reverse
  | c :: rest, cur, acc =>
    if c = '\n' then splitNlAux rest [] (cur.reverse :: acc)
    else splitNlAux rest (c :: cur) acc

/-- Python `str.split('\n')`. -/
def pySplitNl (s : String) : List String :=
  (splitNlAux s.toList [] []).map String.mk

/-- Python truthiness of an `Optional[str]`: `None` and `""` are falsy. -/
def pyTruthyStr : Option String → Bool
  | none => false
  | some s => s ≠ ""

/-- Digit run to a natural number (helper for `int(...)`). -/
def digitsToNat (l : List Char) : Nat :=
  l.foldl (fun acc c => acc * 10 + (c.toNat - '0'.toNat)) 0

/-- Python `int(s)` on an already-stripped string: optional sign then one or
more decimal digits; anything else raises `ValueError`, modelled as `none`. -/
def pyToInt (s : String) : Option Int :=
  match s.toList with
  | [] => none
  | '-' :: rest =>
    if rest ≠ [] ∧ rest.all (·.isDigit) then some (-(digitsToNat rest : Int)) else none
  | '+' :: rest =>
    if rest ≠ [] ∧ rest.all (·.isDigit) then some (digitsToNat rest : Int) else none
  | l =>
    if l.all (·.isDigit) then some (digitsToNat l : Int) else none

/-- Python `float(s)` on a stripped string, restricted to plain decimal
notation `[sign] digits [. digits]` (the structure files this program reads
carry fixed-column decimals; scientific notation does not occur in them).
Failure models `ValueError`. -/
def pyToFloat (s : String) : Option ℚ :=
  let core : List Char → Option ℚ := fun l =>
    match l.span (·.isDigit) with
    | (intPart, rest) =>
      match rest with
      | [] => if intPart ≠ [] then some (digitsToNat intPart : ℚ) else none
      | '.' :: fracPart =>
        if (intPart ≠ [] ∨ fracPart ≠ []) ∧ fracPart.all (·.isDigit) then
          some ((digitsToNat intPart : ℚ) +
            (digitsToNat fracPart : ℚ) / ((10 : ℚ) ^ fracPart.length))
        else none
      | _ => none
  match s.toList with
  | '-' :: rest => (core rest).map (fun q => -q)
  | '+' :: rest => core rest
  | l => core l

/-- Newton iteration for the integer square root (fuelled, so it computes
by kernel reduction; the fuel `n` always suffices). -/
def natSqrtIter (n : Nat) : Nat → Nat → Nat
  | 0, g => g
  | fuel + 1, g =>
    let next := (g + n / g) / 2
    if next < g then natSqrtIter n fuel next else g

/-- Integer (floor) square root. -/
def natSqrtS (n : Nat) : Nat :=
  if n ≤ 1 then n else natSqrtIter n n (n / 2 + 1)

/-- Exact square root on `ℚ` for perfect squares (every distance computed in
this development is a perfect square); non-squares fall back to the integer
square root of the floor, which no theorem below relies on. -/
def ratSqrt (q : ℚ) : ℚ :=
  if q ≤ 0 then 0
  else
    let n := q.num.toNat
    let d := q.den
    let sn := natSqrtS n
    let sd := natSqrtS d
    if sn * sn = n ∧ sd * sd = d then (sn : ℚ) / (sd : ℚ)
    else (natSqrtS (n / d) : ℚ)

/-- `np.mean` over a list, with the source's `0.0` default for `[]`. -/
def pyMean (l : List ℚ) : ℚ :=
  if l.length = 0 then 0 else l.sum / (l.length : ℚ)

/-- `np.min` over a list, with the source's `0.0` default for `[]`. -/
def pyListMin : List ℚ → ℚ
  | [] => 0
  | h :: t => t.foldl min h

/-- `np.max` over a list, with the source's `0.0` default for `[]`. -/
def pyListMax : List ℚ → ℚ
  | [] => 0
  | h :: t => t.foldl max h

/-- Lexicographic (code-point) strict comparison of strings, as Python
compares `str` values. -/
def strLtB : List Char → List Char → Bool
  | [], [] => false
  | [], _ :: _ => true
  | _ :: _, [] => false
  | a :: as, b :: bs =>
    if a.toNat < b.toNat then true
    else if b.toNat < a.toNat then false
    else strLtB as bs

/-- Python `str.upper()`. -/
def pyUpper (s : String) : String :=
  String.mk (s.toList.map Char.toUpper)

/-- One replacement pass of Python `str.replace(pat, rep)` (all
non-overlapping occurrences, left to right); fuelled to stay structurally
recursive, with the string length as always-sufficient fuel for a non-empty
pattern. -/
def replaceFuel (pat rep : List Char) : Nat → List Char → List Char
  | 0, s => s
  | fuel + 1, s =>
    match s with
    | [] => []
    | c :: rest =>
      if pat ≠ [] ∧ pat <+: s then rep ++ replaceFuel pat rep fuel (s.drop pat.length)
      else c :: replaceFuel pat rep fuel rest

/-- Python `str.replace(pat, rep)` for a non-empty pattern. -/
def pyReplace (s pat rep : String) : String :=
  String.mk (replaceFuel pat.toList rep.toList s.toList.length s.toList)

/-- `sorted` on integers (insertion sort: structurally recursive, stable,
and ascending — observably identical to Python's `sorted`). -/
def sortInt (l : List Int) : List Int :=
  l.insertionSort (fun a b => a ≤ b)

end PyLib

open PyLib

/-! ## `workflow/binding_analysis.py` -/

namespace BindingAnalysis

/-- `Atom` dataclass (binding_analysis.py lines 12-27). -/
structure Atom where
  serial : Int
  name : String
  residue_name : String
  chain : String
  residue_number : Int
  x : ℚ
  y : ℚ
  z : ℚ
  element : String := ""
  deriving Repr, DecidableEq

/-- `Atom.coords` property. -/
def Atom.coords (a : Atom) : ℚ × ℚ × ℚ := (a.x, a.y, a.z)

/-- `Residue` dataclass (lines 30-44). -/
structure Residue where
  number : Int
  name : String
  chain : String
  atoms : List Atom
  deriving Repr, DecidableEq

/-- `Residue.ca_atom`: first atom whose stripped name is `"CA"`. -/
def Residue.ca_atom (r : Residue) : Option Atom :=
  r.atoms.find? (fun a => pyStrip a.name = "CA")

/-- One step of the `group_atoms_by_residue` loop: dict keyed by
`(chain, residue_number)`; a fresh key appends a new `Residue` (taking
number/name/chain from the first atom seen), an existing key appends the atom
to that residue's atom list. -/
def groupStep (acc : List ((String × Int) × Residue)) (atom : Atom) :
    List ((String × Int) × Residue) :=
  let key := (atom.chain, atom.residue_number)
  if (acc.find? (fun e => e.1 = key)).isSome then
    acc.map (fun e =>
      if e.1 = key then (e.1, { e.2 with atoms := e.2.atoms ++ [atom] }) else e)
  else
    acc ++ [(key, ({ number := atom.residue_number, name := atom.residue_name,
                     chain := atom.chain, atoms := [atom] } : Residue))]

/-- `group_atoms_by_residue` (lines 80-95): insertion-ordered dict of residues,
then `list(residue_dict.values())`. -/
def group_atoms_by_residue (atoms : List Atom) : List Residue :=
  (atoms.foldl groupStep []).map (·.2)

/-- `calculate_distance` (lines 98-100): Euclidean distance. -/
def calculate_distance (c1 c2 : ℚ × ℚ × ℚ) : ℚ :=
  ratSqrt ((c1.1 - c2.1) ^ 2 + (c1.2.1 - c2.2.1) ^ 2 + (c1.2.2 - c2.2.2) ^ 2)

/-- One entry of `contact_pairs` (lines 141-147). -/
structure ContactPair where
  target_res : Int
  target_name : String
  binder_res : Int
  binder_name : String
  distance : ℚ
  deriving Repr, DecidableEq

/-- Inner loop of `find_interface_residues` (lines 131-148): scan the binder
residues against one target residue with CA atom `tca`, keeping pairs with
distance strictly below the cutoff, in order. -/
def innerScan (t : Residue) (tca : Atom) (cutoff : ℚ) :
    List Residue → List ContactPair
  | [] => []
  | b :: rest =>
    match b.ca_atom with
    | none => innerScan t tca cutoff rest
    | some bca =>
      let d := calculate_distance tca.coords bca.coords
      if d < cutoff then
        { target_res := t.number, target_name := t.name,
          binder_res := b.number, binder_name := b.name,
          distance := d } :: innerScan t tca cutoff rest
      else innerScan t tca cutoff rest

/-- Outer loop of `find_interface_residues` (lines 126-148): target residues
without a CA atom are skipped (`continue`). -/
def outerScan (cutoff : ℚ) (br : List Residue) : List Residue → List ContactPair
  | [] => []
  | t :: rest =>
    match t.ca_atom with
    | none => outerScan cutoff br rest
    | some tca => innerScan t tca cutoff br ++ outerScan cutoff br rest

/-- The dictionary returned by `find_interface_residues` (lines 150-158). -/
structure InterfaceResult where
  interface_residues_target : List Int
  interface_residues_binder : List Int
  num_contacts : Nat
  contact_pairs : List ContactPair
  avg_distance : ℚ
  min_distance : ℚ
  max_distance : ℚ
  deriving Repr, DecidableEq

/-- `find_interface_residues(target_atoms, binder_atoms, cutoff=5.0)`
(lines 103-158).  The Python sets `interface_target` / `interface_binder`
are returned as `sorted(list(set))`, i.e. the sorted deduplicated residue
numbers of the kept pairs; `all_distances` accumulates exactly the kept
pair distances in order. -/
def find_interface_residues (target_atoms binder_atoms : List Atom)
    (cutoff : ℚ := 5) : InterfaceResult :=
  let target_residues := group_atoms_by_residue target_atoms
  let binder_residues := group_atoms_by_residue binder_atoms
  let contact_pairs := outerScan cutoff binder_residues target_residues
  let all_distances := contact_pairs.map (·.distance)
  { interface_residues_target := sortInt ((contact_pairs.map (·.target_res)).dedup)
    interface_residues_binder := sortInt ((contact_pairs.map (·.binder_res)).dedup)
    num_contacts := contact_pairs.length
    contact_pairs := contact_pairs
    avg_distance := pyMean all_distances
    min_distance := pyListMin all_distances
    max_distance := pyListMax all_distances }

/-- The dictionary returned by `assess_binding_quality` (lines 256-262). -/
structure QualityAssessment where
  quality_score : Int
  grade : String
  feedback : List String
  warnings : List String
  recommendation : String
  deriving Repr, DecidableEq

/-- `assess_binding_quality(interface_data)` (lines 181-262): three
independent criteria accumulate `quality_score`, `feedback` and `warnings`
in order, then the total is bucketed into a grade. -/
def assess_binding_quality (d : InterfaceResult) : QualityAssessment :=
  let num_contacts := d.num_contacts
  let avg_dist := d.avg_distance
  let min_dist := d.min_distance
  -- Criterion 1: number of contacts (lines 196-209)
  let c1 : Int × List String × List String :=
    if 15 ≤ num_contacts then (40, ["✅ Excellent number of interface contacts"], [])
    else if 10 ≤ num_contacts then (30, ["✅ Good number of interface contacts"], [])
    else if 5 ≤ num_contacts then
      (15, ["⚠️ Moderate number of interface contacts"], ["Consider increasing interface size"])
    else
      (0, ["❌ Insufficient interface contacts"], ["Interface may be too small for stable binding"])
  -- Criterion 2: average interface distance (lines 211-225)
  let c2 : Int × List String × List String :=
    if 3.5 ≤ avg_dist ∧ avg_dist ≤ 4.5 then (40, ["✅ Optimal average interface distance"], [])
    else if 3.0 ≤ avg_dist ∧ avg_dist ≤ 5.0 then (25, ["✅ Good interface distance"], [])
    else if avg_dist < 3.0 then
      (10, ["⚠️ Interface may be too tight"], ["Check for steric clashes"])
    else
      (15, ["⚠️ Interface distance is suboptimal"], ["Proteins may be too far apart"])
  -- Criterion 3: minimum distance / clash detection (lines 227-237)
  let c3 : Int × List String × List String :=
    if 2.8 ≤ min_dist then (20, ["✅ No severe steric clashes detected"], [])
    else if 2.5 ≤ min_dist then
      (10, ["⚠️ Possible minor steric clashes"], ["Review interface packing"])
    else
      (0, ["❌ Severe steric clashes detected"], ["Significant structural optimization needed"])
  let quality_score := c1.1 + c2.1 + c3.1
  -- Grade buckets (lines 239-254)
  let gr : String × String :=
    if 85 ≤ quality_score then
      ("A - Excellent", "This binder design looks highly promising! Proceed to experimental validation.")
    else if 70 ≤ quality_score then
      ("B - Good", "Good binding interface. Minor optimization may improve binding.")
    else if 50 ≤ quality_score then
      ("C - Moderate", "Interface shows potential but needs optimization. Focus on key residues.")
    else if 30 ≤ quality_score then
      ("D - Poor", "Significant redesign recommended. Consider alternative approaches.")
    else
      ("F - Insufficient", "Interface is inadequate. Complete redesign required.")
  { quality_score := quality_score
    grade := gr.1
    feedback := c1.2.1 ++ c2.2.1 ++ c3.2.1
    warnings := c1.2.2 ++ c2.2.2 ++ c3.2.2
    recommendation := gr.2 }

/-- All cross-structure CA-CA distances, enumerated exactly as the
`find_interface_residues` loops do but without the cutoff filter (used to
state geometric hypotheses about a pair of input structures). -/
def innerAll (tca : Atom) : List Residue → List ℚ
  | [] => []
  | b :: rest =>
    match b.ca_atom with
    | none => innerAll tca rest
    | some bca => calculate_distance tca.coords bca.coords :: innerAll tca rest

/-- Outer enumeration matching `outerScan` without the cutoff filter. -/
def outerAll (br : List Residue) : List Residue → List ℚ
  | [] => []
  | t :: rest =>
    match t.ca_atom with
    | none => outerAll br rest
    | some tca => innerAll tca br ++ outerAll br rest

/-- The cross-structure CA-CA distance list of two atom lists. -/
def ca_cross_distances (target_atoms binder_atoms : List Atom) : List ℚ :=
  outerAll (group_atoms_by_residue binder_atoms) (group_atoms_by_residue target_atoms)

end BindingAnalysis

/-! ## `workflow/workflow_state.py` -/

namespace WorkflowState

/-- `WorkflowStage` enum (workflow_state.py lines 14-21).  These six members
are the only ones the enum defines. -/
inductive WorkflowStage
  | TARGET_INPUT
  | TARGET_PREDICTION
  | BINDER_DESIGN
  | BINDER_PREDICTION
  | COMPLEX_ANALYSIS
  | RESULTS
  deriving Repr, DecidableEq

/-- `.value` of each `WorkflowStage` member. -/
def WorkflowStage.value : WorkflowStage → String
  | .TARGET_INPUT => "target_input"
  | .TARGET_PREDICTION => "target_prediction"
  | .BINDER_DESIGN => "binder_design"
  | .BINDER_PREDICTION => "binder_prediction"
  | .COMPLEX_ANALYSIS => "complex_analysis"
  | .RESULTS => "results"

/-- `WorkflowStage(value)` value lookup; an unknown value raises
`ValueError`, modelled as `none`. -/
def WorkflowStage.fromValue : String → Option WorkflowStage
  | "target_input" => some .TARGET_INPUT
  | "target_prediction" => some .TARGET_PREDICTION
  | "binder_design" => some .BINDER_DESIGN
  | "binder_prediction" => some .BINDER_PREDICTION
  | "complex_analysis" => some .COMPLEX_ANALYSIS
  | "results" => some .RESULTS
  | _ => none

/-- Python attribute access `WorkflowStage.<name>` on the enum class; a name
that is not a member raises `AttributeError`, modelled as `none`.  The
pipeline code refers to members `BINDER_SCAFFOLD_DESIGN`,
`BINDER_SEQUENCE_DESIGN` and `COMPLEX_PREDICTION`, none of which exist. -/
def WorkflowStage.attr : String → Option WorkflowStage
  | "TARGET_INPUT" => some .TARGET_INPUT
  | "TARGET_PREDICTION" => some .TARGET_PREDICTION
  | "BINDER_DESIGN" => some .BINDER_DESIGN
  | "BINDER_PREDICTION" => some .BINDER_PREDICTION
  | "COMPLEX_ANALYSIS" => some .COMPLEX_ANALYSIS
  | "RESULTS" => some .RESULTS
  | _ => none

/-- `StageStatus` enum (lines 24-29). -/
inductive StageStatus
  | NOT_STARTED
  | IN_PROGRESS
  | COMPLETED
  | FAILED
  deriving Repr, DecidableEq

/-- `.value` of each `StageStatus` member. -/
def StageStatus.value : StageStatus → String
  | .NOT_STARTED => "not_started"
  | .IN_PROGRESS => "in_progress"
  | .COMPLETED => "completed"
  | .FAILED => "failed"

/-- `TargetProteinData` dataclass (lines 32-46), declared fields only
(`asdict` and dataclass equality see exactly these). -/
structure TargetProteinData where
  sequence : Option String := none
  pdb_content : Option String := none
  pdb_id : Option String := none
  input_type : String := "sequence"
  structure_predicted : Bool := false
  model_used : Option String := none
  plddt_scores : Option (List ℚ) := none
  confidence_avg : Option ℚ := none
  binding_site_residues : List Int := []
  deriving Repr, DecidableEq

/-- `BinderProteinData` dataclass (lines 49-63). -/
structure BinderProteinData where
  sequence : Option String := none
  pdb_content : Option String := none
  design_method : String := "manual"
  structure_predicted : Bool := false
  model_used : Option String := none
  plddt_scores : Option (List ℚ) := none
  confidence_avg : Option ℚ := none
  mpnn_sequences : List String := []
  selected_sequence_idx : Nat := 0
  deriving Repr, DecidableEq

/-- `ComplexAnalysisData` dataclass (lines 66-83).  The `docking_poses`
field (a list of free-form dicts, unused by every covered operation) is
modelled as an opaque list of strings. -/
structure ComplexAnalysisData where
  docking_method : String := "overlay"
  complex_pdb : Option String := none
  interface_residues_target : List Int := []
  interface_residues_binder : List Int := []
  num_contacts : Nat := 0
  avg_distance : ℚ := 0
  min_distance : ℚ := 0
  binding_affinity : Option ℚ := none
  quality_score : Int := 0
  quality_grade : String := "N/A"
  feedback : List String := []
  docking_poses : List String := []
  deriving Repr, DecidableEq

/-- `WorkflowSession` dataclass (lines 86-98), declared fields only.
`stage_statuses : Dict[str, str]` is an insertion-ordered association
list. -/
structure WorkflowSession where
  session_id : String
  project_name : String
  created_at : String
  last_updated : String
  current_stage : WorkflowStage := .TARGET_INPUT
  stage_statuses : List (String × String) := []
  target : TargetProteinData := {}
  binder : BinderProteinData := {}
  complex : ComplexAnalysisData := {}
  notes : String := ""
  deriving Repr, DecidableEq

/-- The default per-stage status map built by `__post_init__` (lines
100-106). -/
def defaultStageStatuses : List (String × String) :=
  [("target_input", "not_started"), ("target_prediction", "not_started"),
   ("binder_design", "not_started"), ("binder_prediction", "not_started"),
   ("complex_analysis", "not_started"), ("results", "not_started")]

/-- Dataclass construction `WorkflowSession(...)` followed by
`__post_init__`: an empty (falsy) `stage_statuses` is replaced by the
default map. -/
def mkSession (session_id project_name created_at last_updated : String)
    (current_stage : WorkflowStage) (stage_statuses : List (String × String))
    (notes : String) : WorkflowSession :=
  { session_id := session_id, project_name := project_name,
    created_at := created_at, last_updated := last_updated,
    current_stage := current_stage,
    stage_statuses := if stage_statuses = [] then defaultStageStatuses else stage_statuses,
    notes := notes }

/-- Python dict assignment `d[k] = v`: update in place when the key exists,
otherwise append. -/
def dictSet (d : List (String × String)) (k v : String) : List (String × String) :=
  if (d.find? (fun e => e.1 = k)).isSome then
    d.map (fun e => if e.1 = k then (e.1, v) else e)
  else d ++ [(k, v)]

/-- Dict lookup `d.get(k)`. -/
def dictGet (d : List (String × String)) (k : String) : Option String :=
  (d.find? (fun e => e.1 = k)).map (·.2)

/-- `update_stage_status` (lines 108-111); `datetime.now().isoformat()` is
passed in as `now`. -/
def update_stage_status (s : WorkflowSession) (stage : WorkflowStage)
    (status : StageStatus) (now : String) : WorkflowSession :=
  { s with stage_statuses := dictSet s.stage_statuses stage.value status.value,
           last_updated := now }

/-- `advance_to_stage` (lines 113-116). -/
def advance_to_stage (s : WorkflowSession) (stage : WorkflowStage)
    (now : String) : WorkflowSession :=
  update_stage_status { s with current_stage := stage } stage .IN_PROGRESS now

/-- `can_advance_to` (lines 118-148): a pure predicate returning a
`(bool, reason)` pair; it performs no mutation. -/
def can_advance_to (s : WorkflowSession) (stage : WorkflowStage) : Bool × String :=
  match stage with
  | .TARGET_INPUT => (true, "Starting workflow")
  | .TARGET_PREDICTION =>
    if pyTruthyStr s.target.sequence ∨ pyTruthyStr s.target.pdb_content ∨
        pyTruthyStr s.target.pdb_id then
      (true, "Target input provided")
    else (false, "No target protein input provided")
  | .BINDER_DESIGN =>
    if s.target.structure_predicted ∨ pyTruthyStr s.target.pdb_content then
      (true, "Target structure available")
    else (false, "Target structure not available")
  | .BINDER_PREDICTION =>
    if pyTruthyStr s.binder.sequence then (true, "Binder sequence provided")
    else (false, "No binder sequence provided")
  | .COMPLEX_ANALYSIS =>
    if pyTruthyStr s.target.pdb_content ∧ pyTruthyStr s.binder.pdb_content then
      (true, "Both structures available")
    else (false, "Both target and binder structures required")
  | .RESULTS =>
    if pyTruthyStr s.complex.complex_pdb ∨ 0 < s.complex.num_contacts then
      (true, "Analysis complete")
    else (false, "Complex analysis not completed")

/-- The dictionary built by `WorkflowSession.to_dict` (lines 150-163).
`asdict` on the three nested dataclasses is the identity on their declared
fields, so the nested blocks are carried as the records themselves. -/
structure SessionDict where
  session_id : String
  project_name : String
  created_at : String
  last_updated : String
  current_stage : String
  stage_statuses : List (String × String)
  target : TargetProteinData
  binder : BinderProteinData
  complex : ComplexAnalysisData
  notes : String
  deriving Repr, DecidableEq

/-- `to_dict` (lines 150-163). -/
def to_dict (s : WorkflowSession) : SessionDict :=
  { session_id := s.session_id, project_name := s.project_name,
    created_at := s.created_at, last_updated := s.last_updated,
    current_stage := s.current_stage.value,
    stage_statuses := s.stage_statuses,
    target := s.target, binder := s.binder, complex := s.complex,
    notes := s.notes }

/-- `to_json` (lines 165-167): `json.dumps(to_dict(s))`.  The textual
`dumps`/`loads` pair is the Python standard library and round-trips this
dictionary exactly, so serialization is modelled at the dictionary level. -/
def to_json (s : WorkflowSession) : SessionDict := to_dict s

/-- `from_dict` (lines 169-187): reconstruct via the dataclass constructor
(running `__post_init__`), then overwrite the three nested records.
`WorkflowStage(data["current_stage"])` raises `ValueError` on an unknown
stage string, modelled as `none`. -/
def from_dict (d : SessionDict) : Option WorkflowSession :=
  (WorkflowStage.fromValue d.current_stage).map (fun st =>
    let s := mkSession d.session_id d.project_name d.created_at d.last_updated
      st d.stage_statuses d.notes
    { s with target := d.target, binder := d.binder, complex := d.complex })

/-- `from_json` (lines 189-193): `from_dict(json.loads(json_str))`. -/
def from_json (d : SessionDict) : Option WorkflowSession := from_dict d

end WorkflowState

/-! ## `workflow/generative_pipeline.py` -/

namespace GenerativePipeline

open WorkflowState

/-- One step of the `extract_residues_from_pdb` loop (generative_pipeline.py
lines 42-51): per chain a set of residue numbers, chains in first-seen
order.  A line shorter than 22 characters raises `IndexError` at `line[21]`
and is skipped by the `except`; `line[21].strip() or 'A'` turns a blank
chain column into `"A"`. -/
def extractStep (acc : List (String × List Int)) (line : String) :
    List (String × List Int) :=
  if pyStartsWith line "ATOM" then
    if h : 21 < line.toList.length then
      let chainRaw := pyStrip (String.mk [line.toList.get ⟨21, h⟩])
      let chain := if chainRaw = "" then "A" else chainRaw
      match pyToInt (pyStrip (pySlice line 22 26)) with
      | none => acc
      | some res_num =>
        if (acc.find? (fun e => e.1 = chain)).isSome then
          acc.map (fun e =>
            if e.1 = chain then
              (e.1, if res_num ∈ e.2 then e.2 else e.2 ++ [res_num])
            else e)
        else acc ++ [(chain, [res_num])]
    else acc
  else acc

/-- `extract_residues_from_pdb` (lines 30-55): chain → sorted list of
residue numbers; chains keep dict insertion order. -/
def extract_residues_from_pdb (pdb_content : String) : List (String × List Int) :=
  ((pySplitNl pdb_content).foldl extractStep []).map (fun e => (e.1, sortInt e.2))

/-- A match of the pattern `([A-Z])(\d+)-(\d+)` (line 120): captured chain
letter, the two captured numbers, and the full matched text. -/
structure ContigMatch where
  chain : String
  start_res : Int
  end_res : Int
  original : String
  deriving Repr, DecidableEq

/-- Try to match `([A-Z])(\d+)-(\d+)` at the head of `l` (greedy digit runs,
as the regex takes maximal runs before the literal `-`).  Returns the match
and the remaining characters. -/
def matchContigAt : List Char → Option (ContigMatch × List Char)
  | [] => none
  | c :: rest =>
    if 'A' ≤ c ∧ c ≤ 'Z' then
      let (d1, rest1) := rest.span (·.isDigit)
      if d1 = [] then none
      else
        match rest1 with
        | '-' :: rest2 =>
          let (d2, rest3) := rest2.span (·.isDigit)
          if d2 = [] then none
          else
            some ({ chain := String.mk [c],
                    start_res := (digitsToNat d1 : Int),
                    end_res := (digitsToNat d2 : Int),
                    original := String.mk (c :: d1 ++ '-' :: d2) }, rest3)
        | _ => none
    else none

/-- `finditer` scan: left-to-right, non-overlapping, advancing one character
when no match starts at the current position. -/
def scanContigs (fuel : Nat) (l : List Char) : List ContigMatch :=
  match fuel with
  | 0 => []
  | fuel + 1 =>
    match l with
    | [] => []
    | _ :: tail =>
      match matchContigAt l with
      | some (m, rest) => m :: scanContigs fuel rest
      | none => scanContigs fuel tail

/-- All matches of `([A-Z])(\d+)-(\d+)` in `s` in order. -/
def contigMatches (s : String) : List ContigMatch :=
  scanContigs (s.toList.length + 1) s.toList

/-- `min`/`max` over a chain's residue-number list (nonempty whenever the
chain is present). -/
def intListMin : List Int → Int
  | [] => 0
  | h :: t => t.foldl min h

/-- `max` counterpart of `intListMin`. -/
def intListMax : List Int → Int
  | [] => 0
  | h :: t => t.foldl max h

/-- The body of the `for match in chain_pattern.finditer(contigs)` loop
(lines 124-160), processing one match against the extracted residue map and
the accumulated `(fixed_contigs, warnings)`. -/
def fixOneMatch (residues : List (String × List Int))
    (acc : String × List String) (m : ContigMatch) : String × List String :=
  let fixed := acc.1
  let warnings := acc.2
  let (chain, warnings) :=
    if (residues.find? (fun e => e.1 = m.chain)).isSome then (m.chain, warnings)
    else
      let available_chain := match residues.head? with
        | some e => e.1
        | none => "A"
      (available_chain,
       warnings ++ ["Chain " ++ m.chain ++ " not found in PDB, using chain " ++ available_chain])
  match (residues.find? (fun e => e.1 = chain)).map (·.2) with
  | none => (fixed, warnings)
  | some available_nums =>
    let min_res := intListMin available_nums
    let max_res := intListMax available_nums
    if m.start_res < min_res ∨ max_res < m.end_res then
      let range_size := m.end_res - m.start_res
      let new_start := max min_res (min m.start_res (max_res - range_size))
      let new_end := min max_res (new_start + range_size)
      let (new_start, new_end) :=
        if new_end ≤ new_start then (min_res, min max_res (min_res + range_size))
        else (new_start, new_end)
      let new_contig := chain ++ toString new_start ++ "-" ++ toString new_end
      (pyReplace fixed m.original new_contig,
       warnings ++ ["Adjusted " ++ m.original ++ " to " ++ new_contig ++
                    " (PDB has " ++ chain ++ toString min_res ++ "-" ++ toString max_res ++ ")"])
    else (fixed, warnings)

/-- `validate_and_fix_contigs(pdb_content, contigs)` (lines 94-162). -/
def validate_and_fix_contigs (pdb_content contigs : String) :
    String × List String :=
  let residues := extract_residues_from_pdb pdb_content
  if residues = [] then (contigs, ["Could not extract residues from PDB"])
  else (contigMatches contigs).foldl (fixOneMatch residues) (contigs, [])

/-- `_calculate_plddt` (lines 1301-1317): average of the `[60:66]` column
over `ATOM` records whose atom name is `CA`; `0.0` when no such atom
parses. -/
def calculate_plddt (pdb_string : String) : ℚ :=
  let step := fun (acc : ℚ × Nat) (line : String) =>
    if pyStartsWith line "ATOM" ∧ pyStrip (pySlice line 12 16) = "CA" then
      match pyToFloat (pyStrip (pySlice line 60 66)) with
      | some v => (acc.1 + v, acc.2 + 1)
      | none => acc
    else acc
  let r := (pySplitNl pdb_string).foldl step (0, 0)
  if 0 < r.2 then r.1 / (r.2 : ℚ) else 0

/-- Result of a Python method call: a returned value or an uncaught
exception escaping the method boundary. -/
inductive PyResult
  | ret (success : Bool) (msg : String)
  | raised (msg : String)
  deriving Repr, DecidableEq

/-- Shape of the payload a structure-prediction call produces (the duck-typed
`result` at line 332: AlphaFold2 yields a list of PDB strings, OpenFold3 and
AlphaFold3 a single string). -/
inductive PyPayload
  | list (xs : List String)
  | str (s : String)
  deriving Repr, DecidableEq

/-- Behaviour of the external service call inside the `try` block: it either
returns a payload or raises (connection error, non-200 status, malformed
response, timeout — all surface as exceptions from the `_call_*` helpers). -/
inductive SvcOutcome
  | ok (payload : PyPayload)
  | exn (msg : String)
  deriving Repr, DecidableEq

/-- Attributes the pipeline sets on the session's dataclass instances at
runtime (`target.all_structures_pdb`, `target.structure_file_path`): they are
not declared dataclass fields, so serialization and equality ignore them;
reading one before it is set raises `AttributeError`. -/
structure DynAttrs where
  all_structures_pdb : Option String := none
  structure_file_path : Option String := none
  deriving Repr, DecidableEq

/-- `MODEL`/`ENDMDL` wrapping of the AlphaFold2 ensemble (lines 337-343). -/
def buildAllModels (result : List String) : String :=
  String.intercalate "\n"
    ((result.enum.map (fun p =>
      ["MODEL     " ++ toString (p.1 + 1), pyStrip p.2, "ENDMDL"])).flatten)

/-- Model display names (line 359). -/
def modelDisplayName (model : String) : String :=
  if pyUpper model = "AF2" then "AlphaFold2"
  else if pyUpper model = "OF3" then "OpenFold3"
  else if pyUpper model = "AF3" then "AlphaFold3"
  else model

/-- `run_target_prediction` (lines 280-393).  `svc` is the behaviour of the
selected `_call_*` helper; `now` stands for `datetime.now().isoformat()`;
file writes are I/O and are reflected only in `DynAttrs.structure_file_path`.
On the success path the code reaches
`self.session.advance_to_stage(WorkflowStage.BINDER_SCAFFOLD_DESIGN)`
(line 381): the enum has no member of that name, so the attribute access
raises `AttributeError`, which the `except` at line 388 turns into a
`failed` status and a `(False, ...)` return. -/
def run_target_prediction (session : WorkflowSession) (dyn : DynAttrs)
    (model : String) (svc : SvcOutcome) (now : String) :
    PyResult × WorkflowSession × DynAttrs :=
  if ¬ pyTruthyStr session.target.sequence then
    (.ret false "No target sequence provided", session, dyn)
  else
    let s1 := update_stage_status session .TARGET_PREDICTION .IN_PROGRESS now
    -- try: dispatch on the model choice (lines 315-327)
    if pyUpper model ≠ "AF2" ∧ pyUpper model ≠ "OF3" ∧ pyUpper model ≠ "AF3" then
      (.ret false ("Unknown model: " ++ model ++
        ". Use 'AF2' for AlphaFold2, 'OF3' for OpenFold3, or 'AF3' for AlphaFold3."),
       s1, dyn)
    else
      match svc with
      | .exn m =>
        -- except: mark failed, return failure (lines 388-393)
        (.ret false ("Target prediction failed: " ++ m),
         update_stage_status s1 .TARGET_PREDICTION .FAILED now, dyn)
      | .ok payload =>
        -- store results (lines 331-348)
        let stored : Option (String × DynAttrs) :=
          match payload with
          | .list (x :: xs) =>
            some (x, { dyn with all_structures_pdb := some (buildAllModels (x :: xs)) })
          | .list [] => none -- pdb_content becomes a list; `_calculate_plddt` then raises
          | .str s => some (s, dyn)
        match stored with
        | none =>
          (.ret false "Target prediction failed: 'list' object has no attribute 'splitlines'",
           update_stage_status s1 .TARGET_PREDICTION .FAILED now, dyn)
        | some (pdb, dyn1) =>
          let plddt := calculate_plddt pdb
          let target1 : TargetProteinData :=
            { s1.target with
              pdb_content := some pdb,
              confidence_avg := if 0 < plddt then some plddt else s1.target.confidence_avg,
              model_used := some (modelDisplayName model),
              structure_predicted := true }
          let savedPath := some (session.project_name ++ "_target_" ++ model ++ ".pdb")
          let dyn2 := { dyn1 with structure_file_path := savedPath }
          let s2 := update_stage_status { s1 with target := target1 }
            .TARGET_PREDICTION .COMPLETED now
          -- line 381: WorkflowStage.BINDER_SCAFFOLD_DESIGN does not exist
          match WorkflowStage.attr "BINDER_SCAFFOLD_DESIGN" with
          | some stg =>
            let s3 := advance_to_stage s2 stg now
            (.ret true ("Target structure predicted with " ++ modelDisplayName model),
             s3, dyn2)
          | none =>
            -- AttributeError caught by the except at line 388
            (.ret false ("Target prediction failed: " ++ "BINDER_SCAFFOLD_DESIGN"),
             update_stage_status s2 .TARGET_PREDICTION .FAILED now, dyn2)

/-- `run_scaffold_design` (lines 611-737).  After the precondition check the
first statement is
`self.session.update_stage_status(WorkflowStage.BINDER_SCAFFOLD_DESIGN, StageStatus.IN_PROGRESS)`
(line 641), which sits BEFORE the `try` at line 643.  The enum has no member
`BINDER_SCAFFOLD_DESIGN`, so the attribute access raises `AttributeError`
past the method boundary and the rest of the method (lines 643-737) is
unreachable. -/
def run_scaffold_design (session : WorkflowSession) (dyn : DynAttrs)
    (contigs : String) (hotspot_res : List String) (diffusion_steps : Nat)
    (now : String) : PyResult × WorkflowSession × DynAttrs :=
  if ¬ pyTruthyStr session.target.pdb_content then
    (.ret false "No target structure available. Run target prediction first.",
     session, dyn)
  else
    match WorkflowStage.attr "BINDER_SCAFFOLD_DESIGN" with
    | some stg =>
      -- (dead branch: the lookup always fails)
      (.ret false "unreachable",
       update_stage_status session stg .IN_PROGRESS now, dyn)
    | none =>
      -- uncaught AttributeError: no status update happens, nothing is returned
      (.raised "BINDER_SCAFFOLD_DESIGN", session, dyn)

end GenerativePipeline

/-! ## `core/pdb_viewer.py` -/

namespace PdbViewer

/-- The fixed 20-entry three-letter → one-letter table (core/pdb_viewer.py
lines 230-235). -/
def aa_mapping : List (String × String) :=
  [("ALA", "A"), ("ARG", "R"), ("ASN", "N"), ("ASP", "D"), ("CYS", "C"),
   ("GLU", "E"), ("GLN", "Q"), ("GLY", "G"), ("HIS", "H"), ("ILE", "I"),
   ("LEU", "L"), ("LYS", "K"), ("MET", "M"), ("PHE", "F"), ("PRO", "P"),
   ("SER", "S"), ("THR", "T"), ("TRP", "W"), ("TYR", "Y"), ("VAL", "V")]

/-- Table lookup `aa_mapping.get(res_name)`. -/
def aaLookup (res_name : String) : Option String :=
  (aa_mapping.find? (fun e => e.1 = res_name)).map (·.2)

/-- The `ATOM` lines of a structure text (line 227). -/
def atomLines (pdb_content : String) : List String :=
  (pySplitNl pdb_content).filter (fun l => pyStartsWith l "ATOM")

/-- Python dict assignment on an `int → str` dict: overwrite the (unique)
occurrence of the key in place, append when absent. -/
def dictSetInt : List (Int × String) → Int → String → List (Int × String)
  | [], k, v => [(k, v)]
  | e :: rest, k, v =>
    if e.1 = k then (e.1, v) :: rest else e :: dictSetInt rest k v

/-- The residue-collection loop of `analyze_sequence_from_pdb` (lines
238-244), inside the function's bare `try`: the dict is keyed by the residue
NUMBER alone (`residues[res_num] = ...`), so a failing `int()` aborts the
whole function (`none`) and same-numbered residues on different chains
overwrite each other. -/
def buildResidues : List String → List (Int × String) →
    Option (List (Int × String))
  | [], acc => some acc
  | line :: rest, acc =>
    if 26 < line.toList.length then
      match pyToInt (pyStrip (pySlice line 22 26)) with
      | none => none -- int() raises ValueError; the bare except returns None
      | some res_num =>
        let res_name := pyStrip (pySlice line 17 20)
        match aaLookup res_name with
        | some letter => buildResidues rest (dictSetInt acc res_num letter)
        | none => buildResidues rest acc
    else buildResidues rest acc

/-- `sorted(residues.items())` (line 247): lexicographic sort of the
`(res_num, letter)` pairs, which for the distinct keys of a dict is a sort
by residue number. -/
def sortPairsByKey (l : List (Int × String)) : List (Int × String) :=
  l.insertionSort (fun a b => a.1 ≤ b.1)

/-- `analyze_sequence_from_pdb(pdb_content)` (lines 221-252). -/
def analyze_sequence_from_pdb (pdb_content : String) : Option String :=
  if pdb_content = "" then none -- `if not pdb_content: return None`
  else
    match buildResidues (atomLines pdb_content) [] with
    | none => none
    | some residues =>
      some (String.join ((sortPairsByKey residues).map (·.2)))

/-- Modelled from the spec: the `extractSequence` the specification
describes ("maps residue names to single-letter codes via a fixed 20-entry
table, sorted by (chain, residue number)"), keying residues by the pair
(chain from column 21, residue number) instead of the number alone; used
only to compare the source function against the spec's description. -/
def extractSequence_spec (pdb_content : String) : String :=
  let entries : List ((String × Int) × String) :=
    (atomLines pdb_content).foldl (fun acc line =>
      if 26 < line.toList.length then
        match pyToInt (pyStrip (pySlice line 22 26)) with
        | none => acc
        | some res_num =>
          let chain := pyStrip (pySlice line 21 22)
          match aaLookup (pyStrip (pySlice line 17 20)) with
          | some letter =>
            (if (acc.find? (fun e => e.1 = (chain, res_num))).isSome then
              acc.map (fun e => if e.1 = (chain, res_num) then (e.1, letter) else e)
            else acc ++ [((chain, res_num), letter)])
          | none => acc
      else acc) []
  let sorted := entries.insertionSort (fun a b =>
    strLtB a.1.1.toList b.1.1.toList ∨ (a.1.1 = b.1.1 ∧ a.1.2 ≤ b.1.2))
  String.join (sorted.map (·.2))

/-- The `(residue number, letter)` pair a qualifying `ATOM` line contributes:
the line must be longer than 26 characters, its residue number must parse
and its residue name must be in the table. -/
def entryOf (line : String) : Option (Int × String) :=
  if 26 < line.toList.length then
    match pyToInt (pyStrip (pySlice line 22 26)) with
    | none => none
    | some res_num => (aaLookup (pyStrip (pySlice line 17 20))).map ((res_num, ·))
  else none

/-- The qualifying `(residue number, letter)` pairs of the structure text in
line order. -/
def seqEntries (pdb_content : String) : List (Int × String) :=
  (atomLines pdb_content).filterMap entryOf

/-- The letter contributed by residue number `k`: that of the LAST
qualifying line with that number. -/
def lastLetter (entries : List (Int × String)) (k : Int) : Option String :=
  (entries.reverse.find? (fun e => e.1 = k)).map (·.2)

/-- Assoc-list lookup on an `int → str` dict. -/
def lookupInt (d : List (Int × String)) (k : Int) : Option String :=
  (d.find? (fun e => e.1 = k)).map (·.2)

/-- Declarative description of what `analyze_sequence_from_pdb` computes on
well-formed input: the distinct residue numbers of the qualifying lines,
sorted ascending, each mapped to its last-parsed letter. -/
def lastWinsSequence (pdb_content : String) : String :=
  let entries := seqEntries pdb_content
  String.join ((sortInt ((entries.map (·.1)).dedup)).map
    (fun k => (lastLetter entries k).getD ""))

end PdbViewer

/-! ## Concrete inputs used by the theorems -/

namespace Inputs

open BindingAnalysis WorkflowState GenerativePipeline PdbViewer

/-- A structure text containing exactly residues 1 through 120 on chain A
(record name in columns 0-3, chain identifier in column 21, residue number
starting at column 22), given as a flat literal so it evaluates cheaply. -/
def pdb120 : String := "ATOM                 A1\nATOM                 A2\nATOM                 A3\nATOM                 A4\nATOM                 A5\nATOM                 A6\nATOM                 A7\nATOM                 A8\nATOM                 A9\nATOM                 A10\nATOM                 A11\nATOM                 A12\nATOM                 A13\nATOM                 A14\nATOM                 A15\nATOM                 A16\nATOM                 A17\nATOM                 A18\nATOM                 A19\nATOM                 A20\nATOM                 A21\nATOM                 A22\nATOM                 A23\nATOM                 A24\nATOM                 A25\nATOM                 A26\nATOM                 A27\nATOM                 A28\nATOM                 A29\nATOM                 A30\nATOM                 A31\nATOM                 A32\nATOM                 A33\nATOM                 A34\nATOM                 A35\nATOM                 A36\nATOM                 A37\nATOM                 A38\nATOM                 A39\nATOM                 A40\nATOM                 A41\nATOM                 A42\nATOM                 A43\nATOM                 A44\nATOM                 A45\nATOM                 A46\nATOM                 A47\nATOM                 A48\nATOM                 A49\nATOM                 A50\nATOM                 A51\nATOM                 A52\nATOM                 A53\nATOM                 A54\nATOM                 A55\nATOM                 A56\nATOM                 A57\nATOM                 A58\nATOM                 A59\nATOM                 A60\nATOM                 A61\nATOM                 A62\nATOM                 A63\nATOM                 A64\nATOM                 A65\nATOM                 A66\nATOM                 A67\nATOM                 A68\nATOM                 A69\nATOM                 A70\nATOM                 A71\nATOM                 A72\nATOM                 A73\nATOM                 A74\nATOM                 A75\nATOM                 A76\nATOM                 A77\nATOM                 A78\nATOM                 A79\nATOM                 A80\nATOM                 A81\nATOM                 A82\nATOM                 A83\nATOM                 A84\nATOM                 A85\nATOM                 A86\nATOM                 A87\nATOM                 A88\nATOM                 A89\nATOM                 A90\nATOM                 A91\nATOM                 A92\nATOM                 A93\nATOM                 A94\nATOM                 A95\nATOM                 A96\nATOM                 A97\nATOM                 A98\nATOM                 A99\nATOM                 A100\nATOM                 A101\nATOM                 A102\nATOM                 A103\nATOM                 A104\nATOM                 A105\nATOM                 A106\nATOM                 A107\nATOM                 A108\nATOM                 A109\nATOM                 A110\nATOM                 A111\nATOM                 A112\nATOM                 A113\nATOM                 A114\nATOM                 A115\nATOM                 A116\nATOM                 A117\nATOM                 A118\nATOM                 A119\nATOM                 A120"

/-- A rational point at distance exactly 4 from the origin. -/
def mkCA (serial : Int) (resnum : Int) (chain : String) (c : ℚ × ℚ × ℚ) : Atom :=
  { serial := serial, name := "CA", residue_name := "ALA", chain := chain,
    residue_number := resnum, x := c.1, y := c.2.1, z := c.2.2, element := "C" }

/-- Twelve target residues whose CA atoms all lie at distance exactly 4.0
from the single binder CA atom at the origin. -/
def atomsC5target : List Atom :=
  [mkCA 1 1 "A" (4, 0, 0), mkCA 2 2 "A" (-4, 0, 0),
   mkCA 3 3 "A" (0, 4, 0), mkCA 4 4 "A" (0, -4, 0),
   mkCA 5 5 "A" (0, 0, 4), mkCA 6 6 "A" (0, 0, -4),
   mkCA 7 7 "A" (12/5, 16/5, 0), mkCA 8 8 "A" (12/5, -16/5, 0),
   mkCA 9 9 "A" (-12/5, 16/5, 0), mkCA 10 10 "A" (-12/5, -16/5, 0),
   mkCA 11 11 "A" (16/5, 12/5, 0), mkCA 12 12 "A" (-16/5, 12/5, 0)]

/-- One binder residue with its CA atom at the origin. -/
def atomsC5binder : List Atom := [mkCA 13 1 "B" (0, 0, 0)]

/-- Two `ATOM` records with the SAME residue number 1 on DIFFERENT chains
(`A`/ALA and `B`/GLY): chain in column 21, residue name in columns 17-19,
residue number in columns 22-25. -/
def pdbC9 : String :=
  "ATOM      1  CA  ALA A   1 " ++ "\n" ++ "ATOM      2  CA  GLY B   1 "

/-- A session holding a (non-empty) target structure, ready for scaffold
design. -/
def sessionC1 : WorkflowSession :=
  { session_id := "s1", project_name := "proj", created_at := "t0",
    last_updated := "t0", current_stage := .BINDER_DESIGN,
    stage_statuses := defaultStageStatuses,
    target := { pdb_content := some "ATOM      1  CA  ALA A   1 ",
                structure_predicted := true } }

/-- A session holding a target sequence, ready for target prediction. -/
def sessionC2 : WorkflowSession :=
  { session_id := "s2", project_name := "proj", created_at := "t0",
    last_updated := "t0", current_stage := .TARGET_PREDICTION,
    stage_statuses := defaultStageStatuses,
    target := { sequence := some "MKTAYIAKQRQISFVKSHFSRQLEERLGLIEVQ" } }

/-- A populated session with a non-empty status map (round-trip witness). -/
def sessionC3w : WorkflowSession :=
  { session_id := "w1", project_name := "Untitled Project", created_at := "c",
    last_updated := "u", current_stage := .BINDER_DESIGN,
    stage_statuses := [("target_input", "completed"), ("target_prediction", "failed")],
    target := { sequence := some "MKTAYIAKQRQISF", structure_predicted := true,
                confidence_avg := some (85/2), binding_site_residues := [3, 7] },
    binder := { mpnn_sequences := ["AAA", "BBB"], selected_sequence_idx := 1 },
    complex := { num_contacts := 4, avg_distance := 7/2, feedback := ["ok"] },
    notes := "some notes" }

/-- A session whose status map has been emptied after construction (Python
permits clearing the dict in place); `__post_init__` only runs at
construction time. -/
def sessionC3empty : WorkflowSession :=
  { session_id := "e1", project_name := "P", created_at := "c",
    last_updated := "u", stage_statuses := [] }

/-- An interface-data record carrying the three fields
`assess_binding_quality` reads (remaining fields empty). -/
def mkInterface (n : Nat) (avg mind : ℚ) : BindingAnalysis.InterfaceResult :=
  { interface_residues_target := [], interface_residues_binder := [],
    num_contacts := n, contact_pairs := [], avg_distance := avg,
    min_distance := mind, max_distance := 0 }

end Inputs


/-! ## Supporting lemmas -/

namespace BindingAnalysis

/-- An empty binder residue list produces no contact pairs. -/
theorem outerScan_nil (cutoff : ℚ) : ∀ tr, outerScan cutoff [] tr = []
  | [] => rfl
  | t :: rest => by
    cases h : t.ca_atom <;>
      simp [outerScan, h, innerScan, outerScan_nil cutoff rest]

/-- The contact-pair distances are the cross-structure CA distances that
pass the cutoff (inner loop). -/
theorem innerScan_distances (t : Residue) (tca : Atom) (cutoff : ℚ) :
    ∀ br, (innerScan t tca cutoff br).map (·.distance) =
      (innerAll tca br).filter (fun d => d < cutoff)
  | [] => rfl
  | b :: rest => by
    cases h : b.ca_atom with
    | none => simp [innerScan, innerAll, h, innerScan_distances t tca cutoff rest]
    | some bca =>
      by_cases hd : calculate_distance tca.coords bca.coords < cutoff <;>
        simp [innerScan, innerAll, h, hd, innerScan_distances t tca cutoff rest]

/-- The contact-pair distances are the cross-structure CA distances that
pass the cutoff (outer loop). -/
theorem outerScan_distances (cutoff : ℚ) (br : List Residue) :
    ∀ tr, (outerScan cutoff br tr).map (·.distance) =
      (outerAll br tr).filter (fun d => d < cutoff)
  | [] => rfl
  | t :: rest => by
    cases h : t.ca_atom with
    | none => simp [outerScan, outerAll, h, outerScan_distances cutoff br rest]
    | some tca =>
      simp [outerScan, outerAll, h, outerScan_distances cutoff br rest,
        innerScan_distances, List.filter_append]

end BindingAnalysis

namespace PyLib

/-- Sum of a constant list. -/
theorem sum_of_all_eq (c : ℚ) : ∀ (l : List ℚ), (∀ x ∈ l, x = c) →
    l.sum = c * l.length
  | [], _ => by simp
  | x :: rest, h => by
    have hx := h x (by simp)
    have hr := sum_of_all_eq c rest (fun y hy => h y (by simp [hy]))
    simp [hx, hr]
    ring

/-- Folding `min` over a constant list from a matching seed. -/
theorem foldl_min_const (c : ℚ) : ∀ (l : List ℚ), (∀ x ∈ l, x = c) →
    ∀ a, a = c → l.foldl min a = c
  | [], _, a, ha => by simpa using ha
  | x :: rest, h, a, ha => by
    have hx : x = c := h x (by simp)
    have := foldl_min_const c rest (fun y hy => h y (by simp [hy]))
      (min a x) (by simp [hx, ha])
    simpa [List.foldl] using this

/-- Folding `max` over a constant list from a matching seed. -/
theorem foldl_max_const (c : ℚ) : ∀ (l : List ℚ), (∀ x ∈ l, x = c) →
    ∀ a, a = c → l.foldl max a = c
  | [], _, a, ha => by simpa using ha
  | x :: rest, h, a, ha => by
    have hx : x = c := h x (by simp)
    have := foldl_max_const c rest (fun y hy => h y (by simp [hy]))
      (max a x) (by simp [hx, ha])
    simpa [List.foldl] using this

/-- Minimum of a nonempty constant list. -/
theorem pyListMin_of_all_eq (c : ℚ) : ∀ (l : List ℚ), (∀ x ∈ l, x = c) →
    l ≠ [] → pyListMin l = c
  | [], _, hne => absurd rfl hne
  | x :: rest, h, _ =>
    foldl_min_const c rest (fun y hy => h y (by simp [hy])) x (h x (by simp))

/-- Maximum of a nonempty constant list. -/
theorem pyListMax_of_all_eq (c : ℚ) : ∀ (l : List ℚ), (∀ x ∈ l, x = c) →
    l ≠ [] → pyListMax l = c
  | [], _, hne => absurd rfl hne
  | x :: rest, h, _ =>
    foldl_max_const c rest (fun y hy => h y (by simp [hy])) x (h x (by simp))

end PyLib

/-! ## Claims -/

section Claims
open BindingAnalysis WorkflowState GenerativePipeline PdbViewer Inputs

/-- Claim C4: `can_advance_to(BINDER_DESIGN)` depends only on whether a
target structure is present — false with the "Target structure not
available" reason when neither `target.structure_predicted` nor a non-empty
`target.pdb_content` is set, true with the "Target structure available"
reason as soon as one of them is, independent of every other session field;
being a pure function of the session, it performs no mutation. -/
theorem C4_can_advance_binder_design (s : WorkflowSession) :
    can_advance_to s WorkflowStage.BINDER_DESIGN =
      (if s.target.structure_predicted ∨ pyTruthyStr s.target.pdb_content then
        (true, "Target structure available")
      else (false, "Target structure not available")) := rfl

/-- Claim C6: against an empty second structure, `find_interface_residues`
returns a zero-contact result (not an error) with all distance statistics
`0.0`, and `assess_binding_quality` of that result reports the
insufficient-contacts feedback and warning and scores 10, in the
"F - Insufficient" grade bucket. -/
theorem C6_empty_binder_structure (target_atoms : List Atom) (cutoff : ℚ) :
    (find_interface_residues target_atoms [] cutoff).num_contacts = 0 ∧
    (find_interface_residues target_atoms [] cutoff).avg_distance = 0 ∧
    (find_interface_residues target_atoms [] cutoff).min_distance = 0 ∧
    (find_interface_residues target_atoms [] cutoff).max_distance = 0 ∧
    (assess_binding_quality (find_interface_residues target_atoms [] cutoff)).quality_score = 10 ∧
    (assess_binding_quality (find_interface_residues target_atoms [] cutoff)).grade
      = "F - Insufficient" ∧
    "❌ Insufficient interface contacts" ∈
      (assess_binding_quality (find_interface_residues target_atoms [] cutoff)).feedback ∧
    "Interface may be too small for stable binding" ∈
      (assess_binding_quality (find_interface_residues target_atoms [] cutoff)).warnings := by
  have hgroup : group_atoms_by_residue ([] : List Atom) = [] := rfl
  have hr : find_interface_residues target_atoms [] cutoff =
      { interface_residues_target := [], interface_residues_binder := [],
        num_contacts := 0, contact_pairs := [], avg_distance := 0,
        min_distance := 0, max_distance := 0 } := by
    simp [find_interface_residues, hgroup, outerScan_nil, sortInt,
      List.insertionSort, pyMean, pyListMin, pyListMax]
  rw [hr]
  refine ⟨rfl, rfl, rfl, rfl, ?_, ?_, ?_, ?_⟩ <;> decide

/-- Claim C8: with the mean and minimum distances held fixed, the quality
score of `assess_binding_quality` never decreases as the contact count
increases through 4, 6, 11, 16. -/
theorem C8_quality_monotone_in_contacts (avg mind : ℚ) :
    (assess_binding_quality (mkInterface 4 avg mind)).quality_score ≤
      (assess_binding_quality (mkInterface 6 avg mind)).quality_score ∧
    (assess_binding_quality (mkInterface 6 avg mind)).quality_score ≤
      (assess_binding_quality (mkInterface 11 avg mind)).quality_score ∧
    (assess_binding_quality (mkInterface 11 avg mind)).quality_score ≤
      (assess_binding_quality (mkInterface 16 avg mind)).quality_score := by
  simp only [assess_binding_quality, mkInterface]
  norm_num

/-- Claim C10: for every interface-data input, the quality score lies in
[10, 100]: the mean-distance criterion contributes at least 10 points in
every branch and the three criteria sum to at most 40 + 40 + 20. -/
theorem C10_quality_score_bounds (d : InterfaceResult) :
    10 ≤ (assess_binding_quality d).quality_score ∧
    (assess_binding_quality d).quality_score ≤ 100 := by
  simp only [assess_binding_quality]
  split_ifs <;> norm_num

end Claims

section Claims2
open BindingAnalysis WorkflowState GenerativePipeline PdbViewer Inputs

set_option maxHeartbeats 4000000 in
/-- Claim C7: against a target structure holding exactly residues 1-120 on
chain A, the contig specification "A200-230/0 50" is auto-fixed to
"A90-120/0 50" (with a warning recorded rather than a failure): the fixed
chain-A window 90-120 lies entirely within [1, 120] and has the same range
length, 120 - 90 = 230 - 200 = 30. -/
theorem C7_contig_autofix :
    validate_and_fix_contigs pdb120 "A200-230/0 50" =
      ("A90-120/0 50", ["Adjusted A200-230 to A90-120 (PDB has A1-120)"]) ∧
    (1 : Int) ≤ 90 ∧ (120 : Int) ≤ 120 ∧ (120 : Int) - 90 = 230 - 200 := by
  constructor
  · decide
  · decide

/-- Claim C1: the pipeline stage methods are claimed never to raise past the
method boundary, marking the stage failed and returning `(False, message)`
on any exception.  `run_scaffold_design` violates this: on a session with a
target structure it raises `AttributeError` (the `WorkflowStage` enum has no
member `BINDER_SCAFFOLD_DESIGN`) from line 641, which is before its `try`
block, leaving every stage status untouched and returning no
`(success, message)` pair. -/
theorem C1_run_scaffold_design_raises :
    run_scaffold_design sessionC1 {} "A1-25/0 70-100" [] 15 "t1" =
      (PyResult.raised "BINDER_SCAFFOLD_DESIGN", sessionC1, {}) := by
  decide

/-- Claim C2: on a session with a target sequence and an external call that
succeeds with a structure payload, `run_target_prediction` is claimed to
mark the stage completed, auto-advance and return `(True, message)`.
Instead the code stores the structure but then evaluates
`WorkflowStage.BINDER_SCAFFOLD_DESIGN` (line 381), a nonexistent enum
member; the resulting `AttributeError` is caught by its own `except`, the
stage ends `"failed"`, the session does not advance, and the method returns
`(False, "Target prediction failed: ...")`. -/
theorem C2_run_target_prediction_success_path_fails :
    (run_target_prediction sessionC2 {} "AF2" (SvcOutcome.ok (PyPayload.list ["FAKEPDB"])) "t1").1
      = PyResult.ret false "Target prediction failed: BINDER_SCAFFOLD_DESIGN" ∧
    dictGet (run_target_prediction sessionC2 {} "AF2"
      (SvcOutcome.ok (PyPayload.list ["FAKEPDB"])) "t1").2.1.stage_statuses
      "target_prediction" = some "failed" ∧
    (run_target_prediction sessionC2 {} "AF2"
      (SvcOutcome.ok (PyPayload.list ["FAKEPDB"])) "t1").2.1.target.pdb_content
      = some "FAKEPDB" ∧
    (run_target_prediction sessionC2 {} "AF2"
      (SvcOutcome.ok (PyPayload.list ["FAKEPDB"])) "t1").2.1.target.structure_predicted
      = true ∧
    (run_target_prediction sessionC2 {} "AF2"
      (SvcOutcome.ok (PyPayload.list ["FAKEPDB"])) "t1").2.1.current_stage
      = sessionC2.current_stage := by
  refine ⟨?_, ?_, ?_, ?_, ?_⟩ <;> decide

end Claims2

section Claims3
open WorkflowState Inputs

/-- Claim C3 (amended): serialization round-trips every `WorkflowSession`
whose per-stage status map is non-empty (which construction guarantees, via
`__post_init__`): deserializing the serialized form reproduces the session
field-for-field — id, project name, timestamps, current stage, status map,
the nested target/binder/complex records, and notes. -/
theorem C3_session_round_trip (s : WorkflowSession)
    (h : s.stage_statuses ≠ []) : from_json (to_json s) = some s := by
  cases s with
  | mk sid pn ca lu cs ss tg bd cx nt =>
    cases cs <;>
      simp_all [to_json, to_dict, from_json, from_dict, WorkflowStage.fromValue,
        WorkflowStage.value, mkSession]

/-- Witness for C3: the round-trip theorem applied to a concrete populated
session. -/
theorem C3_session_round_trip_witness :
    sessionC3w.stage_statuses ≠ [] ∧ from_json (to_json sessionC3w) = some sessionC3w :=
  ⟨by decide, C3_session_round_trip sessionC3w (by decide)⟩

/-- Counterexample for C3 as stated: a session whose status map was emptied
after construction (Python code can clear the dict in place) does NOT
round-trip — `from_dict` reruns `__post_init__`, which refills an empty map
with the six default `not_started` entries, so the reconstructed session
differs from the original. -/
theorem C3_session_round_trip_counterexample :
    from_json (to_json sessionC3empty) ≠ some sessionC3empty ∧
    (from_json (to_json sessionC3empty)).map (·.stage_statuses) =
      some defaultStageStatuses := by
  refine ⟨?_, ?_⟩ <;> decide

end Claims3

section Claims5
open BindingAnalysis PyLib Inputs

/-- Claim C5 (amended): for two structures whose cross-structure CA pairs
are exactly 12 in number and all at distance exactly 4.0 (hence all within
the 5.0 cutoff and none below 2.5), `find_interface_residues` reports
`num_contacts = 12` and `avg_distance = 4.0`, and `assess_binding_quality`
scores 30 + 40 + 20 = 90 — the "A - Excellent" grade bucket, one above the
"good" bucket the claim names — with no steric-clash warning (no warnings at
all). -/
theorem C5_twelve_contacts_at_four_angstroms (ta ba : List Atom)
    (hlen : (ca_cross_distances ta ba).length = 12)
    (hall : ∀ d ∈ ca_cross_distances ta ba, d = 4) :
    (find_interface_residues ta ba 5).num_contacts = 12 ∧
    (find_interface_residues ta ba 5).avg_distance = 4 ∧
    (find_interface_residues ta ba 5).min_distance = 4 ∧
    (assess_binding_quality (find_interface_residues ta ba 5)).quality_score = 90 ∧
    (assess_binding_quality (find_interface_residues ta ba 5)).grade = "A - Excellent" ∧
    (assess_binding_quality (find_interface_residues ta ba 5)).warnings = [] := by
  have hDfil : (outerScan 5 (group_atoms_by_residue ba)
      (group_atoms_by_residue ta)).map (·.distance) = ca_cross_distances ta ba := by
    rw [outerScan_distances]
    exact List.filter_eq_self.mpr (fun d hd => by rw [hall d hd]; decide)
  have hlen' : (outerScan 5 (group_atoms_by_residue ba)
      (group_atoms_by_residue ta)).length = 12 := by
    have := congrArg List.length hDfil
    rw [List.length_map] at this
    exact this.trans hlen
  have hne : (outerScan 5 (group_atoms_by_residue ba)
      (group_atoms_by_residue ta)).map (·.distance) ≠ [] := by
    rw [hDfil]
    intro hnil
    rw [hnil] at hlen
    simp at hlen
  have hnum : (find_interface_residues ta ba 5).num_contacts = 12 := hlen'
  have havg : (find_interface_residues ta ba 5).avg_distance = 4 := by
    show pyMean ((outerScan 5 (group_atoms_by_residue ba)
      (group_atoms_by_residue ta)).map (·.distance)) = 4
    have hsum := sum_of_all_eq 4 _ (hDfil ▸ hall)
    have hlenD : ((outerScan 5 (group_atoms_by_residue ba)
        (group_atoms_by_residue ta)).map (·.distance)).length = 12 := by
      rw [List.length_map]; exact hlen'
    rw [pyMean, if_neg (by rw [hlenD]; norm_num), hsum, hlenD]
    norm_num
  have hmin : (find_interface_residues ta ba 5).min_distance = 4 := by
    show pyListMin ((outerScan 5 (group_atoms_by_residue ba)
      (group_atoms_by_residue ta)).map (·.distance)) = 4
    exact pyListMin_of_all_eq 4 _ (hDfil ▸ hall) hne
  refine ⟨hnum, havg, hmin, ?_, ?_, ?_⟩ <;>
    · simp only [assess_binding_quality, hnum, havg, hmin]
      norm_num

/-- Witness for C5 (amended): twelve target CA atoms on a sphere of radius
4 around a single binder CA atom. -/
theorem C5_twelve_contacts_witness :
    (ca_cross_distances atomsC5target atomsC5binder).length = 12 ∧
    (∀ d ∈ ca_cross_distances atomsC5target atomsC5binder, d = 4) ∧
    ((find_interface_residues atomsC5target atomsC5binder 5).num_contacts = 12 ∧
     (find_interface_residues atomsC5target atomsC5binder 5).avg_distance = 4 ∧
     (find_interface_residues atomsC5target atomsC5binder 5).min_distance = 4 ∧
     (assess_binding_quality (find_interface_residues atomsC5target atomsC5binder 5)).quality_score = 90 ∧
     (assess_binding_quality (find_interface_residues atomsC5target atomsC5binder 5)).grade = "A - Excellent" ∧
     (assess_binding_quality (find_interface_residues atomsC5target atomsC5binder 5)).warnings = []) :=
  ⟨by decide, by decide,
    C5_twelve_contacts_at_four_angstroms atomsC5target atomsC5binder (by decide) (by decide)⟩

/-- Counterexample for C5 as stated: on a concrete pair of structures with
exactly 12 cross-structure CA pairs, all at distance exactly 4.0, the
quality score is 90 and the grade is "A - Excellent" — NOT the
"B - Good" bucket the claim asserts. -/
theorem C5_counterexample :
    (find_interface_residues atomsC5target atomsC5binder 5).num_contacts = 12 ∧
    (find_interface_residues atomsC5target atomsC5binder 5).avg_distance = 4 ∧
    (assess_binding_quality (find_interface_residues atomsC5target atomsC5binder 5)).quality_score = 90 ∧
    (assess_binding_quality (find_interface_residues atomsC5target atomsC5binder 5)).grade
      = "A - Excellent" ∧
    (assess_binding_quality (find_interface_residues atomsC5target atomsC5binder 5)).grade
      ≠ "B - Good" := by
  refine ⟨?_, ?_, ?_, ?_, ?_⟩ <;> decide

end Claims5

namespace PdbViewer

/-- Lookup after a dict assignment. -/
theorem lookupInt_dictSetInt : ∀ (d : List (Int × String)) (k0 : Int) (v : String) (k : Int),
    lookupInt (dictSetInt d k0 v) k = if k = k0 then some v else lookupInt d k
  | [], k0, v, k => by
    by_cases h : k = k0
    · subst h; simp [dictSetInt, lookupInt, List.find?]
    · have h' : ¬ k0 = k := fun hh => h hh.symm
      simp [dictSetInt, lookupInt, List.find?, h, h']
  | e :: rest, k0, v, k => by
    by_cases he : e.1 = k0
    · by_cases hk : k = k0 <;>
        simp [dictSetInt, lookupInt, List.find?, he, hk] <;>
        simp_all [eq_comm]
    · by_cases hk : e.1 = k
      · have : ¬ k = k0 := fun h => he (hk.trans h)
        simp [dictSetInt, lookupInt, List.find?, he, hk, this]
      · have := lookupInt_dictSetInt rest k0 v k
        simp [dictSetInt, lookupInt, List.find?, he, hk] at this ⊢
        exact this

/-- `lastLetter` on a cons: later entries win. -/
theorem lastLetter_cons (e : Int × String) (rest : List (Int × String)) (k : Int) :
    lastLetter (e :: rest) k =
      (lastLetter rest k).orElse (fun _ => if e.1 = k then some e.2 else none) := by
  simp only [lastLetter, List.reverse_cons, List.find?_append]
  by_cases h : e.1 = k <;>
    cases hfind : List.find? (fun x => decide (x.1 = k)) rest.reverse <;>
      simp [h, hfind, Option.orElse, List.find?]

/-- Lookup in the dict built by folding assignments: the last entry for a
key wins, falling back to the initial dict. -/
theorem lookupInt_fold_dictSetInt : ∀ (es : List (Int × String))
    (acc : List (Int × String)) (k : Int),
    lookupInt (es.foldl (fun d e => dictSetInt d e.1 e.2) acc) k =
      (lastLetter es k).orElse (fun _ => lookupInt acc k)
  | [], acc, k => by simp [lastLetter, Option.orElse]
  | e :: rest, acc, k => by
    have ih := lookupInt_fold_dictSetInt rest (dictSetInt acc e.1 e.2) k
    simp only [List.foldl_cons] at ih ⊢
    rw [ih, lookupInt_dictSetInt, lastLetter_cons]
    cases hl : lastLetter rest k <;>
      by_cases h : k = e.1 <;>
        simp [Option.orElse, hl, h, eq_comm]

/-- Key membership after a dict assignment. -/
theorem mem_keys_dictSetInt : ∀ (d : List (Int × String)) (k0 : Int) (v : String) (k : Int),
    (k ∈ (dictSetInt d k0 v).map (·.1)) ↔ (k ∈ d.map (·.1) ∨ k = k0)
  | [], k0, v, k => by simp [dictSetInt]
  | e :: rest, k0, v, k => by
    by_cases he : e.1 = k0
    · subst he
      simp [dictSetInt]
      tauto
    · have := mem_keys_dictSetInt rest k0 v k
      simp [dictSetInt, he, this]
      tauto

/-- Dict assignment preserves distinctness of keys. -/
theorem nodup_keys_dictSetInt : ∀ (d : List (Int × String)) (k0 : Int) (v : String),
    (d.map (·.1)).Nodup → ((dictSetInt d k0 v).map (·.1)).Nodup
  | [], k0, v, _ => by simp [dictSetInt]
  | e :: rest, k0, v, h => by
    simp only [List.map_cons, List.nodup_cons] at h
    by_cases he : e.1 = k0
    · simpa [dictSetInt, he, List.nodup_cons] using h
    · have hrec := nodup_keys_dictSetInt rest k0 v h.2
      have hmem : ¬ e.1 ∈ (dictSetInt rest k0 v).map (·.1) := by
        rw [mem_keys_dictSetInt]
        push_neg
        exact ⟨h.1, he⟩
      have hstep : dictSetInt (e :: rest) k0 v = e :: dictSetInt rest k0 v := by
        simp [dictSetInt, he]
      rw [hstep, List.map_cons, List.nodup_cons]
      exact ⟨hmem, hrec⟩

/-- Key membership in the dict built by folding assignments. -/
theorem mem_keys_fold_dictSetInt : ∀ (es : List (Int × String))
    (acc : List (Int × String)) (k : Int),
    (k ∈ ((es.foldl (fun d e => dictSetInt d e.1 e.2) acc).map (·.1))) ↔
      (k ∈ acc.map (·.1) ∨ k ∈ es.map (·.1))
  | [], acc, k => by simp
  | e :: rest, acc, k => by
    have ih := mem_keys_fold_dictSetInt rest (dictSetInt acc e.1 e.2) k
    simp only [List.foldl_cons] at ih ⊢
    rw [ih, mem_keys_dictSetInt]
    simp
    tauto

/-- The dict built by folding assignments has distinct keys. -/
theorem nodup_keys_fold_dictSetInt : ∀ (es : List (Int × String))
    (acc : List (Int × String)), (acc.map (·.1)).Nodup →
    (((es.foldl (fun d e => dictSetInt d e.1 e.2) acc).map (·.1))).Nodup
  | [], acc, h => h
  | e :: rest, acc, h => by
    simpa using nodup_keys_fold_dictSetInt rest (dictSetInt acc e.1 e.2)
      (nodup_keys_dictSetInt acc e.1 e.2 h)

/-- An association list with distinct keys is the graph of its own lookup
function over its key list. -/
theorem assoc_eq_map_keys : ∀ (d : List (Int × String)), (d.map (·.1)).Nodup →
    d = (d.map (·.1)).map (fun k => (k, (lookupInt d k).getD ""))
  | [], _ => rfl
  | e :: rest, h => by
    simp only [List.map_cons, List.nodup_cons] at h
    have hhead : lookupInt (e :: rest) e.1 = some e.2 := by
      simp [lookupInt, List.find?]
    have htail : ∀ k ∈ rest.map (·.1), lookupInt (e :: rest) k = lookupInt rest k := by
      intro k hk
      have : ¬ e.1 = k := fun hek => h.1 (hek ▸ hk)
      simp [lookupInt, List.find?, this]
    have ih := assoc_eq_map_keys rest h.2
    calc e :: rest
        = (e.1, (lookupInt (e :: rest) e.1).getD "") ::
            (rest.map (·.1)).map (fun k => (k, (lookupInt rest k).getD "")) := by
          rw [hhead]
          exact congrArg _ ih
      _ = (List.map (·.1) (e :: rest)).map
            (fun k => (k, (lookupInt (e :: rest) k).getD "")) := by
          simp only [List.map_cons, List.map_map]
          refine congrArg _ ?_
          refine (List.map_congr_left ?_)
          intro x hx
          simp only [Function.comp]
          rw [htail x.1 (List.mem_map_of_mem _ hx)]

end PdbViewer

namespace PdbViewer

/-- Two strictly-key-sorted association lists that are permutations of each
other are equal. -/
theorem eq_of_perm_of_key_sorted (l1 l2 : List (Int × String))
    (hp : l1.Perm l2)
    (h1 : l1.Pairwise (fun a b => a.1 < b.1))
    (h2 : l2.Pairwise (fun a b => a.1 < b.1)) : l1 = l2 := by
  haveI : IsAntisymm (Int × String) (fun a b => a.1 < b.1) :=
    ⟨fun a b hab hba => absurd (lt_trans hab hba) (lt_irrefl _)⟩
  exact List.eq_of_perm_of_sorted hp h1 h2

/-- Key-sortedness plus distinct keys gives strict key-sortedness. -/
theorem pairwise_key_lt_of_le_of_nodup : ∀ (l : List (Int × String)),
    l.Pairwise (fun a b => a.1 ≤ b.1) → (l.map (·.1)).Nodup →
    l.Pairwise (fun a b => a.1 < b.1)
  | [], _, _ => List.Pairwise.nil
  | e :: rest, hle, hnd => by
    rw [List.pairwise_cons] at hle ⊢
    rw [List.map_cons, List.nodup_cons] at hnd
    refine ⟨fun b hb => lt_of_le_of_ne (hle.1 b hb) ?_,
      pairwise_key_lt_of_le_of_nodup rest hle.2 hnd.2⟩
    intro heq
    exact hnd.1 (by rw [heq]; exact List.mem_map_of_mem _ hb)

end PdbViewer

namespace PdbViewer

/-- Sorting the dict built by the residue-collection fold yields exactly the
sorted distinct residue numbers, each paired with its last-parsed letter. -/
theorem sortPairs_fold_eq (es : List (Int × String)) :
    sortPairsByKey (es.foldl (fun d e => dictSetInt d e.1 e.2) []) =
      (sortInt ((es.map (·.1)).dedup)).map
        (fun k => (k, (lastLetter es k).getD "")) := by
  set d := es.foldl (fun d e => dictSetInt d e.1 e.2) [] with hd
  set f : Int → Int × String := fun k => (k, (lastLetter es k).getD "") with hf
  have hknd : (d.map (·.1)).Nodup := nodup_keys_fold_dictSetInt es [] (by simp)
  have hkmem : ∀ k, k ∈ d.map (·.1) ↔ k ∈ es.map (·.1) := fun k => by
    have := mem_keys_fold_dictSetInt es [] k
    simpa [hd] using this
  have hlook : ∀ k, lookupInt d k = lastLetter es k := fun k => by
    have := lookupInt_fold_dictSetInt es [] k
    cases h : lastLetter es k <;>
      simpa [lookupInt, List.find?, Option.orElse, h, hd] using this
  have hdmap : d = (d.map (·.1)).map f :=
    (assoc_eq_map_keys d hknd).trans
      (List.map_congr_left (fun k _ => by rw [hf]; simp [hlook k]))
  have hsknd : (sortInt ((es.map (·.1)).dedup)).Nodup :=
    ((List.perm_insertionSort _ _).nodup_iff).mpr (List.nodup_dedup _)
  have hkeysperm : (sortInt ((es.map (·.1)).dedup)).Perm (d.map (·.1)) := by
    refine (List.perm_ext_iff_of_nodup hsknd hknd).mpr (fun a => ?_)
    rw [sortInt, List.mem_insertionSort, List.mem_dedup, hkmem]
  have hRperm : ((sortInt ((es.map (·.1)).dedup)).map f).Perm d := by
    conv_rhs => rw [hdmap]
    exact hkeysperm.map f
  have hLperm : (sortPairsByKey d).Perm d := List.perm_insertionSort _ _
  haveI instTot : IsTotal (Int × String) (fun a b => a.1 ≤ b.1) :=
    ⟨fun a b => le_total a.1 b.1⟩
  haveI instTrans : IsTrans (Int × String) (fun a b => a.1 ≤ b.1) :=
    ⟨fun _ _ _ => le_trans⟩
  have hLsorted : (sortPairsByKey d).Pairwise (fun a b => a.1 ≤ b.1) :=
    List.sorted_insertionSort _ _
  have hLknd : ((sortPairsByKey d).map (·.1)).Nodup :=
    ((hLperm.map (·.1)).nodup_iff).mpr hknd
  have hLstrict := pairwise_key_lt_of_le_of_nodup _ hLsorted hLknd
  have hkeysorted : (sortInt ((es.map (·.1)).dedup)).Pairwise (fun a b : Int => a ≤ b) :=
    List.sorted_insertionSort _ _
  have hRsorted : (((sortInt ((es.map (·.1)).dedup)).map f)).Pairwise
      (fun a b => a.1 ≤ b.1) := by
    rw [List.pairwise_map]
    exact hkeysorted.imp (fun h => by simpa [hf] using h)
  have hRknd : ((((sortInt ((es.map (·.1)).dedup)).map f)).map (·.1)).Nodup := by
    have : (·.1) ∘ f = id := by funext k; simp [hf]
    rw [List.map_map, this, List.map_id]
    exact hsknd
  have hRstrict := pairwise_key_lt_of_le_of_nodup _ hRsorted hRknd
  exact eq_of_perm_of_key_sorted _ _ (hLperm.trans hRperm.symm) hLstrict hRstrict

/-- Under the hypothesis that every long-enough `ATOM` record has a
parseable residue-number field, the residue-collection loop succeeds and
computes the fold of dict assignments over the qualifying entries. -/
theorem buildResidues_eq : ∀ (lines : List String),
    (∀ line ∈ lines, 26 < line.toList.length →
      (pyToInt (pyStrip (pySlice line 22 26))).isSome) →
    ∀ acc, buildResidues lines acc =
      some ((lines.filterMap entryOf).foldl (fun d e => dictSetInt d e.1 e.2) acc)
  | [], _, acc => rfl
  | line :: rest, hok, acc => by
    have hrest : ∀ l ∈ rest, 26 < l.toList.length →
        (pyToInt (pyStrip (pySlice l 22 26))).isSome :=
      fun l hl => hok l (by simp [hl])
    by_cases hlen : 26 < line.toList.length
    · obtain ⟨n, hn⟩ := Option.isSome_iff_exists.mp (hok line (by simp) hlen)
      cases haa : aaLookup (pyStrip (pySlice line 17 20)) with
      | none =>
        simp only [buildResidues, entryOf, hlen, if_pos, hn, haa, List.filterMap_cons]
        simp [buildResidues_eq rest hrest acc, hn, haa]
      | some letter =>
        simp only [buildResidues, entryOf, hlen, if_pos, hn, haa, List.filterMap_cons]
        simp [buildResidues_eq rest hrest (dictSetInt acc n letter), hn, haa]
    · simp only [buildResidues, entryOf, hlen, List.filterMap_cons]
      simp [buildResidues_eq rest hrest acc, hlen]

end PdbViewer

section Claims9
open PdbViewer Inputs

/-- Claim C9 (amended): for every structure text whose long-enough `ATOM`
records all carry parseable residue-number fields (the function returns no
result otherwise, via its blanket exception handler),
`analyze_sequence_from_pdb` returns the string obtained by mapping the
qualifying records through the 20-entry table with residues keyed and
ordered by residue number ALONE: distinct residue numbers appear in
ascending order and, when several records share a number (e.g. across
chains), the last-parsed one wins. -/
theorem C9_sequence_extraction_last_wins (pdb : String) (h1 : pdb ≠ "")
    (h2 : ∀ line ∈ atomLines pdb, 26 < line.toList.length →
      (pyToInt (pyStrip (pySlice line 22 26))).isSome) :
    analyze_sequence_from_pdb pdb = some (lastWinsSequence pdb) := by
  unfold analyze_sequence_from_pdb
  rw [if_neg h1, buildResidues_eq (atomLines pdb) h2 []]
  simp only [sortPairs_fold_eq, lastWinsSequence, seqEntries, List.map_map,
    Function.comp]
  rfl

/-- Witness for C9 (amended): the theorem applied to the two-chain
structure text, whose extraction is "G" (chain B's GLY at residue number 1
overwrites chain A's ALA at the same number). -/
theorem C9_sequence_extraction_witness :
    pdbC9 ≠ "" ∧
    (∀ line ∈ atomLines pdbC9, 26 < line.toList.length →
      (pyToInt (pyStrip (pySlice line 22 26))).isSome) ∧
    analyze_sequence_from_pdb pdbC9 = some (lastWinsSequence pdbC9) ∧
    lastWinsSequence pdbC9 = "G" :=
  ⟨by decide, by decide,
   C9_sequence_extraction_last_wins pdbC9 (by decide) (by decide), by decide⟩

/-- Counterexample for C9 as stated: on a structure with ALA as residue 1
of chain A and GLY as residue 1 of chain B, the claimed (chain, residue
number) ordering would give "AG" (as the spec-described extraction does),
but `analyze_sequence_from_pdb` keys its dict by residue number only and
returns "G". -/
theorem C9_sequence_extraction_counterexample :
    analyze_sequence_from_pdb pdbC9 = some "G" ∧
    extractSequence_spec pdbC9 = "AG" ∧
    ("G" : String) ≠ "AG" := by
  refine ⟨?_, ?_, ?_⟩ <;> decide

end Claims9
